import Mathlib

/-!
Shallow embedding of flavio/rust-client-watcher (src/main.rs and
src/custom_resources.rs): the resource descriptor resolver, the CLI
scope validation in main, the managed-fields stripping transform, the
reflector store fold, and the deep-merge patch algebra for the custom
resource schemas.

Machinery provided by the kube / k8s_openapi crates that the repository
calls but does not define (the reflector writer's event application, the
watcher event modify helper, the leaf DeepMerge instances) is modelled
from the specification, as marked on each definition.
-/

/-- Entry of the resource list returned by a discovery query
(`APIResource` in the Kubernetes discovery response): `name` is the
plural name, `kind` the kind, `namespaced` the scope flag. -/
structure DiscoveryResource where
  name : String
  kind : String
  namespaced : Bool
deriving DecidableEq, Repr

/-- `kube::api::ApiResource` as populated by `build_api_resource`
(src/main.rs:58-64). -/
structure ApiResource where
  group : String
  version : String
  api_version : String
  kind : String
  plural : String
deriving DecidableEq, Repr

/-- `KubeResource` (src/main.rs:31-35). -/
structure KubeResource where
  resource : ApiResource
  namespaced : Bool
deriving DecidableEq, Repr

/-- Errors produced by `build_api_resource` via `anyhow!`
(src/main.rs:47 and src/main.rs:54). -/
inductive BuildError where
  | malformedGroupVersion (apiversion : String)
  | notFound (apiversion kind : String)
deriving DecidableEq, Repr

/-- Rust `str::split_once` on a list of characters: split at the first
occurrence of `c`, returning the parts before and after it, or `none`
when `c` does not occur. -/
def splitOnceChars (c : Char) : List Char → Option (List Char × List Char)
  | [] => none
  | x :: xs =>
    if x = c then some ([], xs)
    else
      match splitOnceChars c xs with
      | none => none
      | some (a, b) => some (x :: a, b)

/-- Rust `str::split_once` (used at src/main.rs:46). -/
def splitOnce (s : String) (c : Char) : Option (String × String) :=
  match splitOnceChars c s.data with
  | none => none
  | some (a, b) => some (a.asString, b.asString)

/-- Group/version parsing phase of `build_api_resource`
(src/main.rs:43-48): bare "v1" denotes the core group (group "",
version "v1"); any other apiversion is split at the first '/', failing
with the malformed-group-version error when there is none. -/
def parseGroupVersion (apiversion : String) :
    Except BuildError (String × String) :=
  if apiversion = "v1" then Except.ok ("", "v1")
  else
    match splitOnce apiversion '/' with
    | some gv => Except.ok gv
    | none => Except.error (BuildError.malformedGroupVersion apiversion)

/-- Continuation of `build_api_resource`: with (group, version) in hand,
scan the discovery resource list for an exact kind match
(src/main.rs:50-66). -/
def findResource (resources_list : List DiscoveryResource)
    (apiversion kind group version : String) :
    Except BuildError KubeResource :=
  match resources_list.find? (fun r => r.kind = kind) with
  | none => Except.error (BuildError.notFound apiversion kind)
  | some resource =>
    Except.ok
      { resource :=
          { group := group
            version := version
            api_version := apiversion
            kind := kind
            plural := resource.name }
        namespaced := resource.namespaced }

/-- `build_api_resource` (src/main.rs:37-67). The discovery round trip
is the first step of the Rust function; its successfully returned
resource list is the `resources_list` argument here. Then the
group/version is parsed, and the discovery response is scanned for an
exact kind match. -/
def build_api_resource (resources_list : List DiscoveryResource)
    (apiversion kind : String) : Except BuildError KubeResource :=
  match parseGroupVersion apiversion with
  | Except.error e => Except.error e
  | Except.ok (group, version) =>
    findResource resources_list apiversion kind group version

theorem splitOnceChars_eq_none_of_not_mem {c : Char} :
    ∀ {l : List Char}, c ∉ l → splitOnceChars c l = none := by
  intro l
  induction l with
  | nil => intro _; rfl
  | cons x xs ih =>
    intro h
    have hx : ¬ x = c := fun hxc => h (hxc ▸ List.mem_cons_self x xs)
    have hxs : c ∉ xs := fun hm => h (List.mem_cons_of_mem x hm)
    simp [splitOnceChars, hx, ih hxs]

theorem splitOnce_eq_none_of_not_mem {s : String} (h : ('/' : Char) ∉ s.data) :
    splitOnce s '/' = none := by
  simp [splitOnce, splitOnceChars_eq_none_of_not_mem h]

/-- Metadata of a `kube::core::DynamicObject`: the identity fields
(namespace, name), the `managed_fields` bookkeeping that the transform
at src/main.rs:122 clears, and an abstract remainder (`extra`) standing
for labels, annotations and every other metadata field. -/
structure ObjectMeta where
  name : String
  nspace : Option String
  managed_fields : Option String
  extra : String
deriving DecidableEq, Repr

/-- A `kube::core::DynamicObject`: metadata plus an abstract `data`
payload standing for the object's spec, status and all remaining
content. -/
structure DynamicObject where
  metadata : ObjectMeta
  data : String
deriving DecidableEq, Repr

/-- ResourceIdentity: (namespace, name), the key by which the reflector
store indexes objects of one resource type. -/
abbrev ResourceIdentity := Option String × String

/-- Identity of an object (its `ObjectRef` excluding the fixed type
information). -/
def identityOf (o : DynamicObject) : ResourceIdentity :=
  (o.metadata.nspace, o.metadata.name)

/-- `kube::runtime::watcher::Event` (the variant set used by
src/main.rs:80-84): `applied`, `deleted`, and `restarted` carrying the
full relist. -/
inductive WatcherEvent where
  | applied (o : DynamicObject)
  | deleted (o : DynamicObject)
  | restarted (items : List DynamicObject)
deriving DecidableEq, Repr

/-- Modelled from the spec: `kube::runtime::watcher::Event::modify` is
kube-runtime code, not under src/. It returns the event with the given
object transform applied to the carried object of each variant (each
element of the carried list for `restarted`). src/main.rs:120 calls it
on every event of the watch stream. -/
def WatcherEvent.modify (f : DynamicObject → DynamicObject) :
    WatcherEvent → WatcherEvent
  | WatcherEvent.applied o => WatcherEvent.applied (f o)
  | WatcherEvent.deleted o => WatcherEvent.deleted (f o)
  | WatcherEvent.restarted items => WatcherEvent.restarted (items.map f)

/-- The closure passed to `ev.modify` at src/main.rs:120-123: clear the
object's managed fields, touching nothing else. -/
def clearManagedFields (o : DynamicObject) : DynamicObject :=
  { o with metadata := { o.metadata with managed_fields := none } }

/-- The `map_ok` transform of the watch stream (src/main.rs:119-124),
acting on one delivered event. -/
def transformEvent (ev : WatcherEvent) : WatcherEvent :=
  ev.modify clearManagedFields

/-- The reflector store content: a map from ResourceIdentity to the
stored object. -/
def Store := ResourceIdentity → Option DynamicObject

/-- The store as created before any event is applied. -/
def emptyStore : Store := fun _ => none

/-- Insert (or overwrite) one object by its identity. -/
def upsertObj (s : Store) (o : DynamicObject) : Store :=
  fun k => if k = identityOf o then some o else s k

/-- Map content built from a relist: start from empty and insert each
object of `items` in order, so the result holds exactly the objects of
`items` keyed by identity. -/
def restartStore (items : List DynamicObject) : Store :=
  items.foldl upsertObj emptyStore

/-- Modelled from the spec: the reflector writer's
`apply_watcher_event` (kube-runtime's `store::Writer`, not under src/),
called by `my_reflector` at src/main.rs:85. `Applied(o)` upserts `o` by
identity, `Deleted(o)` removes by identity (no-op when absent), and
`Restarted(L)` replaces the entire map content with `L` keyed by
identity. -/
def apply_watcher_event (s : Store) : WatcherEvent → Store
  | WatcherEvent.applied o => upsertObj s o
  | WatcherEvent.deleted o =>
    fun k => if k = identityOf o then none else s k
  | WatcherEvent.restarted items => restartStore items

/-- `my_reflector` (src/main.rs:73-87) applies every delivered (Ok)
event of the stream to the writer, in delivery order; this is the store
it leaves after a finite delivered prefix. -/
def my_reflector (s : Store) (events : List WatcherEvent) : Store :=
  events.foldl apply_watcher_event s

/-- The parsed CLI flags (src/main.rs:11-29). -/
structure Cli where
  apiversion : String
  kind : String
  nspace : Option String
  global : Bool
deriving DecidableEq, Repr

/-- Scope of the `Api` handle built at src/main.rs:103-114. -/
inductive ApiScope where
  | namespaced (ns : String)
  | all
deriving DecidableEq, Repr

/-- Fatal errors surfaced by `main` before the watch starts:
the conflicting-scope error (src/main.rs:92-96), a resolver failure
propagated from `build_api_resource` (src/main.rs:100), and the
missing-namespace error (src/main.rs:110). -/
inductive MainError where
  | conflictingScope
  | buildError (e : BuildError)
  | missingNamespace
deriving DecidableEq, Repr

/-- Cluster-touching steps of `main`, in program order: creating the
authenticated client (src/main.rs:98), the discovery round trip inside
`build_api_resource` (src/main.rs:100 calling src/main.rs:38-41), and
opening the watch (src/main.rs:119/127). -/
inductive NetAction where
  | createClient
  | discovery
  | openWatch
deriving DecidableEq, Repr

deriving instance DecidableEq for Except

/-- Result of running `main` up to the point where the infinite watch
loop would begin: the cluster-touching steps performed, in order, and
either the fatal error returned or the scope of the watch that is
opened. -/
structure MainOutcome where
  trace : List NetAction
  result : Except MainError ApiScope
deriving DecidableEq, Repr

/-- Straight-line model of `main` (src/main.rs:90-131) up to the watch
loop. The conflicting-scope check runs first, before the client exists;
then the client is created and `build_api_resource` performs its
discovery query (both assumed to succeed at the transport level, with
`resources_list` the discovery response); then the scope is chosen,
failing with the missing-namespace error for a namespaced resource with
neither `--namespace` nor `--global`, and otherwise the watch opens. -/
def runMain (cli : Cli) (resources_list : List DiscoveryResource) :
    MainOutcome :=
  if cli.nspace.isSome && cli.global then
    { trace := [], result := Except.error MainError.conflictingScope }
  else
    let tr := [NetAction.createClient, NetAction.discovery]
    match build_api_resource resources_list cli.apiversion cli.kind with
    | Except.error e =>
      { trace := tr, result := Except.error (MainError.buildError e) }
    | Except.ok resource =>
      if !cli.global && resource.namespaced then
        match cli.nspace with
        | some ns =>
          { trace := tr ++ [NetAction.openWatch]
            result := Except.ok (ApiScope.namespaced ns) }
        | none =>
          { trace := tr, result := Except.error MainError.missingNamespace }
      else
        { trace := tr ++ [NetAction.openWatch]
          result := Except.ok ApiScope.all }

/-- Modelled from the spec: `k8s_openapi::DeepMerge` for atomic values
(required scalars such as `String` and `bool`), not under src/: the
value is always replaced by `other`'s value. -/
def mergeAtom {α : Type} (_self other : α) : α := other

/-- Modelled from the spec: `k8s_openapi::DeepMerge` for `Option` of an
atomic scalar, not under src/: if `other` is present, `self := other`;
otherwise unchanged. -/
def mergeOptAtom {α : Type} (sf other : Option α) : Option α :=
  match other with
  | some y => some y
  | none => sf

/-- Modelled from the spec: `k8s_openapi::DeepMerge` for `Option` of a
composite value, not under src/: if `other` is absent, unchanged; if
`self` is absent, `self := other` wholesale; if both are present,
recurse with the composite's own merge. -/
def mergeOpt {α : Type} (mergeField : α → α → α) (sf other : Option α) :
    Option α :=
  match other with
  | none => sf
  | some y =>
    match sf with
    | none => some y
    | some x => some (mergeField x y)

/-- `ResourceQuotaLimit` (src/custom_resources.rs:40-67): thirteen
optional scalar leaves. -/
structure ResourceQuotaLimit where
  pods : Option String
  services : Option String
  replication_controllers : Option String
  secrets : Option String
  config_maps : Option String
  persistent_volume_claims : Option String
  services_node_ports : Option String
  services_load_balancers : Option String
  requests_cpu : Option String
  requests_memory : Option String
  requests_storage : Option String
  limits_cpu : Option String
  limits_memory : Option String
deriving DecidableEq, Repr

/-- `DeepMerge for ResourceQuotaLimit` (src/custom_resources.rs:69-92):
merge every leaf field with the optional-scalar rule. -/
def ResourceQuotaLimit.merge_from (sf other : ResourceQuotaLimit) :
    ResourceQuotaLimit where
  pods := mergeOptAtom sf.pods other.pods
  services := mergeOptAtom sf.services other.services
  replication_controllers :=
    mergeOptAtom sf.replication_controllers other.replication_controllers
  secrets := mergeOptAtom sf.secrets other.secrets
  config_maps := mergeOptAtom sf.config_maps other.config_maps
  persistent_volume_claims :=
    mergeOptAtom sf.persistent_volume_claims other.persistent_volume_claims
  services_node_ports :=
    mergeOptAtom sf.services_node_ports other.services_node_ports
  services_load_balancers :=
    mergeOptAtom sf.services_load_balancers other.services_load_balancers
  requests_cpu := mergeOptAtom sf.requests_cpu other.requests_cpu
  requests_memory := mergeOptAtom sf.requests_memory other.requests_memory
  requests_storage := mergeOptAtom sf.requests_storage other.requests_storage
  limits_cpu := mergeOptAtom sf.limits_cpu other.limits_cpu
  limits_memory := mergeOptAtom sf.limits_memory other.limits_memory

/-- `NamespaceResourceQuota` (src/custom_resources.rs:5-8). -/
structure NamespaceResourceQuota where
  limit : Option ResourceQuotaLimit
deriving DecidableEq, Repr

/-- `DeepMerge for NamespaceResourceQuota`
(src/custom_resources.rs:10-17). -/
def NamespaceResourceQuota.merge_from (sf other : NamespaceResourceQuota) :
    NamespaceResourceQuota where
  limit := mergeOpt ResourceQuotaLimit.merge_from sf.limit other.limit

/-- `ProjectResourceQuota` (src/custom_resources.rs:21-26). -/
structure ProjectResourceQuota where
  limit : Option ResourceQuotaLimit
  used_limit : Option ResourceQuotaLimit
deriving DecidableEq, Repr

/-- `DeepMerge for ProjectResourceQuota`
(src/custom_resources.rs:28-36). -/
def ProjectResourceQuota.merge_from (sf other : ProjectResourceQuota) :
    ProjectResourceQuota where
  limit := mergeOpt ResourceQuotaLimit.merge_from sf.limit other.limit
  used_limit :=
    mergeOpt ResourceQuotaLimit.merge_from sf.used_limit other.used_limit

/-- `ContainerResourceLimit` (src/custom_resources.rs:96-105). -/
structure ContainerResourceLimit where
  requests_cpu : Option String
  requests_memory : Option String
  limits_cpu : Option String
  limits_memory : Option String
deriving DecidableEq, Repr

/-- `DeepMerge for ContainerResourceLimit`
(src/custom_resources.rs:107-117). -/
def ContainerResourceLimit.merge_from (sf other : ContainerResourceLimit) :
    ContainerResourceLimit where
  requests_cpu := mergeOptAtom sf.requests_cpu other.requests_cpu
  requests_memory := mergeOptAtom sf.requests_memory other.requests_memory
  limits_cpu := mergeOptAtom sf.limits_cpu other.limits_cpu
  limits_memory := mergeOptAtom sf.limits_memory other.limits_memory

/-- `ProjectSpec` (src/custom_resources.rs:137-150): optional scalar
leaves, a required `description` string, optional composite quota
nodes, and a required boolean. -/
structure ProjectSpec where
  display_name : Option String
  description : String
  cluster_name : Option String
  resource_quota : Option ProjectResourceQuota
  namespace_default_resource_quota : Option NamespaceResourceQuota
  container_default_resource_limit : Option ContainerResourceLimit
  enable_project_monitoring : Bool
deriving DecidableEq, Repr

/-- `DeepMerge for ProjectSpec` (src/custom_resources.rs:152-168). -/
def ProjectSpec.merge_from (sf other : ProjectSpec) : ProjectSpec where
  display_name := mergeOptAtom sf.display_name other.display_name
  description := mergeAtom sf.description other.description
  cluster_name := mergeOptAtom sf.cluster_name other.cluster_name
  resource_quota :=
    mergeOpt ProjectResourceQuota.merge_from sf.resource_quota
      other.resource_quota
  namespace_default_resource_quota :=
    mergeOpt NamespaceResourceQuota.merge_from
      sf.namespace_default_resource_quota
      other.namespace_default_resource_quota
  container_default_resource_limit :=
    mergeOpt ContainerResourceLimit.merge_from
      sf.container_default_resource_limit
      other.container_default_resource_limit
  enable_project_monitoring :=
    mergeAtom sf.enable_project_monitoring other.enable_project_monitoring

theorem mergeOptAtom_self {α : Type} (x : Option α) : mergeOptAtom x x = x := by
  cases x <;> rfl

theorem mergeOpt_self {α : Type} {f : α → α → α} (h : ∀ v, f v v = v)
    (x : Option α) : mergeOpt f x x = x := by
  cases x <;> simp [mergeOpt, h]

theorem rql_merge_from_self (x : ResourceQuotaLimit) : x.merge_from x = x := by
  cases x
  simp [ResourceQuotaLimit.merge_from, mergeOptAtom_self]

theorem nrq_merge_from_self (x : NamespaceResourceQuota) :
    x.merge_from x = x := by
  cases x
  simp [NamespaceResourceQuota.merge_from, mergeOpt_self rql_merge_from_self]

theorem prq_merge_from_self (x : ProjectResourceQuota) :
    x.merge_from x = x := by
  cases x
  simp [ProjectResourceQuota.merge_from, mergeOpt_self rql_merge_from_self]

theorem crl_merge_from_self (x : ContainerResourceLimit) :
    x.merge_from x = x := by
  cases x
  simp [ContainerResourceLimit.merge_from, mergeOptAtom_self]

theorem ps_merge_from_self (x : ProjectSpec) : x.merge_from x = x := by
  cases x
  simp [ProjectSpec.merge_from, mergeAtom, mergeOptAtom_self,
    mergeOpt_self prq_merge_from_self, mergeOpt_self nrq_merge_from_self,
    mergeOpt_self crl_merge_from_self]

theorem foldl_upsert_not_mem {k : ResourceIdentity} :
    ∀ (items : List DynamicObject) (s : Store),
      (∀ x ∈ items, identityOf x ≠ k) →
      items.foldl upsertObj s k = s k := by
  intro items
  induction items with
  | nil => intro s _; rfl
  | cons o rest ih =>
    intro s h
    have ho : identityOf o ≠ k := h o (List.mem_cons_self o rest)
    have hko : ¬ k = identityOf o := fun hk => ho hk.symm
    have hrest : ∀ x ∈ rest, identityOf x ≠ k :=
      fun x hx => h x (List.mem_cons_of_mem o hx)
    rw [List.foldl_cons, ih _ hrest]
    simp [upsertObj, hko]

/-- Frame relation of the transform: `o2` is `o1` with the managed
fields cleared and everything else (identity, other metadata, data)
unchanged. -/
def StrippedOf (o2 o1 : DynamicObject) : Prop :=
  o2.metadata.managed_fields = none ∧
  o2.metadata.name = o1.metadata.name ∧
  o2.metadata.nspace = o1.metadata.nspace ∧
  o2.metadata.extra = o1.metadata.extra ∧
  o2.data = o1.data

/-- Concrete cluster-scoped object used by witnesses. -/
def objNamed (n : String) : DynamicObject :=
  { metadata := { name := n, nspace := none, managed_fields := none, extra := "" }
    data := "" }

/-- ResourceQuotaLimit with every leaf unset. -/
def rqlEmpty : ResourceQuotaLimit :=
  { pods := none, services := none, replication_controllers := none
    secrets := none, config_maps := none, persistent_volume_claims := none
    services_node_ports := none, services_load_balancers := none
    requests_cpu := none, requests_memory := none, requests_storage := none
    limits_cpu := none, limits_memory := none }

/-- ProjectSpec with every optional node unset. -/
def psEmpty : ProjectSpec :=
  { display_name := none, description := "", cluster_name := none
    resource_quota := none, namespace_default_resource_quota := none
    container_default_resource_limit := none
    enable_project_monitoring := false }

/-- Base spec of the composite-recursion example:
resourceQuota.limit.pods = "5". -/
def c2Base : ProjectSpec :=
  { psEmpty with
    resource_quota :=
      some { limit := some { rqlEmpty with pods := some "5" }
             used_limit := none } }

/-- Patch spec of the composite-recursion example:
resourceQuota.limit.services = "3". -/
def c2Patch : ProjectSpec :=
  { psEmpty with
    resource_quota :=
      some { limit := some { rqlEmpty with services := some "3" }
             used_limit := none } }

/-- C1: the Reflector Store's apply function matches the reference
transition semantics for every delivered event sequence — `Applied(o)`
upserts `o` by identity, `Deleted(o)` removes by identity (a no-op if
absent), `Restarted(L)` replaces the entire map content with `L` keyed
by identity so that entries absent from `L` are removed; in particular,
after `[Applied(A), Applied(B), Restarted([B, C])]` the store contains
exactly `{B, C}`, and after `[Applied(A), Applied(B), Deleted(A)]` it
contains exactly `{B}`. -/
theorem c1_store_transition_semantics
    (s : Store) (o : DynamicObject) (items : List DynamicObject)
    (k : ResourceIdentity) (A B C : DynamicObject)
    (hAB : identityOf A ≠ identityOf B)
    (_hAC : identityOf A ≠ identityOf C)
    (hBC : identityOf B ≠ identityOf C) :
    (apply_watcher_event s (WatcherEvent.applied o) k
        = if k = identityOf o then some o else s k) ∧
    (apply_watcher_event s (WatcherEvent.deleted o) k
        = if k = identityOf o then none else s k) ∧
    ((∀ x ∈ items, identityOf x ≠ k) →
      apply_watcher_event s (WatcherEvent.restarted items) k = none) ∧
    (∀ k', my_reflector emptyStore
        [WatcherEvent.applied A, WatcherEvent.applied B,
          WatcherEvent.restarted [B, C]] k'
        = if k' = identityOf B then some B
          else if k' = identityOf C then some C else none) ∧
    (∀ k', my_reflector emptyStore
        [WatcherEvent.applied A, WatcherEvent.applied B,
          WatcherEvent.deleted A] k'
        = if k' = identityOf B then some B else none) := by
  refine ⟨rfl, rfl, ?_, ?_, ?_⟩
  · intro h
    simpa [apply_watcher_event, restartStore, emptyStore] using
      foldl_upsert_not_mem items emptyStore h
  · intro k'
    by_cases h1 : k' = identityOf B
    · subst h1
      simp [my_reflector, apply_watcher_event, restartStore, upsertObj,
        emptyStore, hBC]
    · by_cases h2 : k' = identityOf C
      · subst h2
        simp [my_reflector, apply_watcher_event, restartStore, upsertObj,
          emptyStore, h1]
      · simp [my_reflector, apply_watcher_event, restartStore, upsertObj,
          emptyStore, h1, h2]
  · intro k'
    by_cases h1 : k' = identityOf A
    · subst h1
      simp [my_reflector, apply_watcher_event, upsertObj, emptyStore, hAB]
    · by_cases h2 : k' = identityOf B
      · subst h2
        simp [my_reflector, apply_watcher_event, upsertObj, emptyStore, h1]
      · simp [my_reflector, apply_watcher_event, upsertObj, emptyStore,
          h1, h2]

/-- Witness for the C1 theorem, at the empty store and three concrete
objects with pairwise distinct identities. -/
theorem c1_store_transition_semantics_witness :
    (identityOf (objNamed "a") ≠ identityOf (objNamed "b") ∧
      identityOf (objNamed "a") ≠ identityOf (objNamed "c") ∧
      identityOf (objNamed "b") ≠ identityOf (objNamed "c")) ∧
    ((apply_watcher_event emptyStore (WatcherEvent.applied (objNamed "a"))
          ((none : Option String), "a")
        = if ((none : Option String), "a") = identityOf (objNamed "a")
            then some (objNamed "a")
            else emptyStore ((none : Option String), "a")) ∧
      (apply_watcher_event emptyStore (WatcherEvent.deleted (objNamed "a"))
          ((none : Option String), "a")
        = if ((none : Option String), "a") = identityOf (objNamed "a")
            then none else emptyStore ((none : Option String), "a")) ∧
      ((∀ x ∈ ([] : List DynamicObject),
          identityOf x ≠ ((none : Option String), "a")) →
        apply_watcher_event emptyStore (WatcherEvent.restarted [])
          ((none : Option String), "a") = none) ∧
      (∀ k', my_reflector emptyStore
          [WatcherEvent.applied (objNamed "a"),
            WatcherEvent.applied (objNamed "b"),
            WatcherEvent.restarted [objNamed "b", objNamed "c"]] k'
          = if k' = identityOf (objNamed "b") then some (objNamed "b")
            else if k' = identityOf (objNamed "c") then some (objNamed "c")
            else none) ∧
      (∀ k', my_reflector emptyStore
          [WatcherEvent.applied (objNamed "a"),
            WatcherEvent.applied (objNamed "b"),
            WatcherEvent.deleted (objNamed "a")] k'
          = if k' = identityOf (objNamed "b") then some (objNamed "b")
            else none)) :=
  ⟨⟨by decide, by decide, by decide⟩,
    c1_store_transition_semantics emptyStore (objNamed "a") []
      ((none : Option String), "a") (objNamed "a") (objNamed "b")
      (objNamed "c") (by decide) (by decide) (by decide)⟩

/-- C2: merge_from is right-biased on optional leaves (if the base has
an optional leaf unset and the patch has it set, the result takes the
patch's value) and recursive on composite nodes — merging a base with
resourceQuota.limit.pods = "5" and a patch with
resourceQuota.limit.services = "3" yields both pods = "5" and
services = "3". -/
theorem c2_merge_right_bias_and_recursion
    (x y : ResourceQuotaLimit) (v : String) (p q : ProjectSpec) (w : String)
    (_hx : x.pods = none) (hy : y.pods = some v)
    (_hp : p.cluster_name = none) (hq : q.cluster_name = some w) :
    (x.merge_from y).pods = some v ∧
    (p.merge_from q).cluster_name = some w ∧
    (c2Base.merge_from c2Patch).resource_quota =
      some { limit := some { rqlEmpty with pods := some "5", services := some "3" }
             used_limit := none } := by
  refine ⟨?_, ?_, ?_⟩
  · simp [ResourceQuotaLimit.merge_from, hy, mergeOptAtom]
  · simp [ProjectSpec.merge_from, hq, mergeOptAtom]
  · rfl

/-- Witness for the C2 theorem at concrete base and patch values. -/
theorem c2_merge_right_bias_and_recursion_witness :
    (rqlEmpty.pods = none ∧
      ({ rqlEmpty with pods := some "5" } : ResourceQuotaLimit).pods
        = some "5" ∧
      psEmpty.cluster_name = none ∧
      ({ psEmpty with cluster_name := some "west" } : ProjectSpec).cluster_name
        = some "west") ∧
    ((rqlEmpty.merge_from { rqlEmpty with pods := some "5" }).pods
        = some "5" ∧
      (psEmpty.merge_from
          { psEmpty with cluster_name := some "west" }).cluster_name
        = some "west" ∧
      (c2Base.merge_from c2Patch).resource_quota =
        some { limit := some { rqlEmpty with pods := some "5", services := some "3" }
               used_limit := none }) :=
  ⟨⟨rfl, rfl, rfl, rfl⟩,
    c2_merge_right_bias_and_recursion rqlEmpty
      { rqlEmpty with pods := some "5" } "5" psEmpty
      { psEmpty with cluster_name := some "west" } "west" rfl rfl rfl rfl⟩

/-- C5: merging a partial spec with itself is the identity for every
value of each of the five merge schemas. -/
theorem c5_merge_from_idempotent (a : ProjectSpec) (b : ProjectResourceQuota)
    (c : NamespaceResourceQuota) (d : ResourceQuotaLimit)
    (e : ContainerResourceLimit) :
    a.merge_from a = a ∧ b.merge_from b = b ∧ c.merge_from c = c ∧
    d.merge_from d = d ∧ e.merge_from e = e :=
  ⟨ps_merge_from_self a, prq_merge_from_self b, nrq_merge_from_self c,
    rql_merge_from_self d, crl_merge_from_self e⟩


/-- Concrete CLI invocation with neither a namespace nor the global
flag. -/
def cliNoScope : Cli :=
  { apiversion := "v1", kind := "Pod", nspace := none, global := false }

/-- Concrete CLI invocation with both a namespace and the global
flag. -/
def cliConflict : Cli :=
  { apiversion := "v1", kind := "Pod", nspace := some "default",
    global := true }

/-- Concrete discovery response of the core group: the namespaced Pod
resource. -/
def podsDiscovery : List DiscoveryResource :=
  [{ name := "pods", kind := "Pod", namespaced := true }]

/-- Descriptor that `build_api_resource` resolves for Pod against
`podsDiscovery`. -/
def podKubeResource : KubeResource :=
  { resource :=
      { group := "", version := "v1", api_version := "v1", kind := "Pod",
        plural := "pods" },
    namespaced := true }

/-- Concrete discovery response of the apps/v1 group: the namespaced
Deployment resource. -/
def deployDiscovery : List DiscoveryResource :=
  [{ name := "deployments", kind := "Deployment", namespaced := true }]

/-- C3 counterexample: with a namespaced descriptor (Pod in core "v1")
and a CLI giving neither a namespace nor the global flag, `main` does
fail with the missing-namespace configuration error, but only after
the client has been created and the discovery query has run — the
namespaced flag that triggers the error is itself obtained from
discovery, so the process does not exit before every network call. -/
theorem c3_missing_namespace_after_discovery_counterexample :
    (runMain cliNoScope podsDiscovery).result =
      Except.error MainError.missingNamespace ∧
    NetAction.createClient ∈ (runMain cliNoScope podsDiscovery).trace ∧
    NetAction.discovery ∈ (runMain cliNoScope podsDiscovery).trace := by
  decide

/-- C3 (amended): the conflicting-scope error (namespace together with
the global flag) is reported before any network call — before the
client is created and before the discovery query; the missing-namespace
error for a namespaced descriptor is necessarily reported after the
discovery query that produced the namespaced flag, but still before any
watch is opened. -/
theorem c3_scope_error_ordering
    (cli : Cli) (L : List DiscoveryResource) (kr : KubeResource)
    (hbuild : build_api_resource L cli.apiversion cli.kind = Except.ok kr)
    (hns : kr.namespaced = true) :
    (cli.nspace.isSome = true → cli.global = true →
      (runMain cli L).result = Except.error MainError.conflictingScope ∧
      (runMain cli L).trace = []) ∧
    (cli.nspace = none → cli.global = false →
      (runMain cli L).result = Except.error MainError.missingNamespace ∧
      NetAction.discovery ∈ (runMain cli L).trace ∧
      NetAction.openWatch ∉ (runMain cli L).trace) := by
  constructor
  · intro h1 h2
    simp [runMain, h1, h2]
  · intro h1 h2
    simp [runMain, h1, h2, hbuild, hns]

/-- Witness for the C3 amended theorem, with a namespaced core
descriptor. -/
theorem c3_scope_error_ordering_witness :
    (build_api_resource podsDiscovery cliNoScope.apiversion
        cliNoScope.kind = Except.ok podKubeResource ∧
      podKubeResource.namespaced = true) ∧
    ((cliNoScope.nspace.isSome = true → cliNoScope.global = true →
        (runMain cliNoScope podsDiscovery).result =
          Except.error MainError.conflictingScope ∧
        (runMain cliNoScope podsDiscovery).trace = []) ∧
      (cliNoScope.nspace = none → cliNoScope.global = false →
        (runMain cliNoScope podsDiscovery).result =
          Except.error MainError.missingNamespace ∧
        NetAction.discovery ∈ (runMain cliNoScope podsDiscovery).trace ∧
        NetAction.openWatch ∉ (runMain cliNoScope podsDiscovery).trace)) :=
  ⟨⟨by decide, by decide⟩,
    c3_scope_error_ordering cliNoScope podsDiscovery podKubeResource
      (by decide) (by decide)⟩

/-- C4: when the discovery response for a well-formed group/version
holds a resource whose kind is an exact match, the Resolver returns a
descriptor whose plural name is that resource's name and whose
namespaced flag is that resource's namespaced flag; when no resource of
that kind is in the response, it fails with the not-found error. -/
theorem c4_resolver_matches_discovery
    (L : List DiscoveryResource) (apiversion kind : String)
    (hwf : apiversion = "v1" ∨
      ∃ g v, splitOnce apiversion '/' = some (g, v)) :
    (∀ r, L.find? (fun e => e.kind = kind) = some r →
      ∃ kr, build_api_resource L apiversion kind = Except.ok kr ∧
        kr.resource.plural = r.name ∧ kr.namespaced = r.namespaced) ∧
    ((∀ r ∈ L, r.kind ≠ kind) →
      build_api_resource L apiversion kind =
        Except.error (BuildError.notFound apiversion kind)) := by
  obtain ⟨g, v, hgv⟩ :
      ∃ g v, parseGroupVersion apiversion = Except.ok (g, v) := by
    rcases hwf with h | ⟨g, v, h⟩
    · exact ⟨"", "v1", by simp [parseGroupVersion, h]⟩
    · by_cases hv : apiversion = "v1"
      · exact ⟨"", "v1", by simp [parseGroupVersion, hv]⟩
      · exact ⟨g, v, by simp [parseGroupVersion, hv, h]⟩
  constructor
  · intro r hr
    refine ⟨{ resource := { group := g, version := v,
                            api_version := apiversion, kind := kind,
                            plural := r.name },
              namespaced := r.namespaced }, ?_, rfl, rfl⟩
    simp [build_api_resource, findResource, hgv, hr]
  · intro h
    have hfind : L.find? (fun e => e.kind = kind) = none := by
      rw [List.find?_eq_none]
      intro x hx
      simp [h x hx]
    simp [build_api_resource, findResource, hgv, hfind]

/-- Witness for the C4 theorem at a concrete discovery response. -/
theorem c4_resolver_matches_discovery_witness :
    ("apps/v1" = "v1" ∨
      ∃ g v, splitOnce "apps/v1" '/' = some (g, v)) ∧
    ((∀ r, deployDiscovery.find? (fun e => e.kind = "Deployment")
          = some r →
        ∃ kr, build_api_resource deployDiscovery "apps/v1" "Deployment" =
            Except.ok kr ∧
          kr.resource.plural = r.name ∧ kr.namespaced = r.namespaced) ∧
      ((∀ r ∈ deployDiscovery, r.kind ≠ "Deployment") →
        build_api_resource deployDiscovery "apps/v1" "Deployment" =
          Except.error (BuildError.notFound "apps/v1" "Deployment"))) :=
  ⟨Or.inr ⟨"apps", "v1", by decide⟩,
    c4_resolver_matches_discovery deployDiscovery "apps/v1" "Deployment"
      (Or.inr ⟨"apps", "v1", by decide⟩)⟩

/-- C6: whatever the descriptor (any discovery response), a CLI
invocation giving both a namespace and the global flag fails with the
conflicting-scope error, before anything else happens. -/
theorem c6_conflicting_scope_always_fails
    (cli : Cli) (L : List DiscoveryResource)
    (hns : cli.nspace.isSome = true) (hg : cli.global = true) :
    (runMain cli L).result = Except.error MainError.conflictingScope ∧
    (runMain cli L).trace = [] := by
  simp [runMain, hns, hg]

/-- Witness for the C6 theorem at a concrete CLI invocation. -/
theorem c6_conflicting_scope_always_fails_witness :
    (cliConflict.nspace.isSome = true ∧ cliConflict.global = true) ∧
    ((runMain cliConflict podsDiscovery).result =
        Except.error MainError.conflictingScope ∧
      (runMain cliConflict podsDiscovery).trace = []) :=
  ⟨⟨by decide, by decide⟩,
    c6_conflicting_scope_always_fails cliConflict podsDiscovery
      (by decide) (by decide)⟩

/-- C7: for a resolved descriptor with the namespaced flag set, a CLI
invocation giving neither a namespace nor the global flag fails with
the missing-namespace error, and no watch is opened. -/
theorem c7_missing_namespace_fails
    (cli : Cli) (L : List DiscoveryResource) (kr : KubeResource)
    (hbuild : build_api_resource L cli.apiversion cli.kind = Except.ok kr)
    (hns : kr.namespaced = true)
    (hnone : cli.nspace = none) (hg : cli.global = false) :
    (runMain cli L).result = Except.error MainError.missingNamespace ∧
    NetAction.openWatch ∉ (runMain cli L).trace := by
  simp [runMain, hnone, hg, hbuild, hns]

/-- Witness for the C7 theorem at a concrete namespaced descriptor. -/
theorem c7_missing_namespace_fails_witness :
    (build_api_resource podsDiscovery cliNoScope.apiversion
        cliNoScope.kind = Except.ok podKubeResource ∧
      podKubeResource.namespaced = true ∧
      cliNoScope.nspace = none ∧ cliNoScope.global = false) ∧
    ((runMain cliNoScope podsDiscovery).result =
        Except.error MainError.missingNamespace ∧
      NetAction.openWatch ∉ (runMain cliNoScope podsDiscovery).trace) :=
  ⟨⟨by decide, by decide, by decide, by decide⟩,
    c7_missing_namespace_fails cliNoScope podsDiscovery podKubeResource
      (by decide) (by decide) (by decide) (by decide)⟩

/-- C8: the Resolver treats the bare string "v1" as the core group
(group "", version "v1"), and any other group/version string containing
no '/' separator fails with the malformed-group-version error. -/
theorem c8_core_v1_and_malformed
    (L : List DiscoveryResource) (kind s : String) (r : KubeResource)
    (hs : s ≠ "v1") (hslash : ('/' : Char) ∉ s.data) :
    parseGroupVersion "v1" = Except.ok ("", "v1") ∧
    (build_api_resource L "v1" kind = Except.ok r →
      r.resource.group = "" ∧ r.resource.version = "v1") ∧
    build_api_resource L s kind =
      Except.error (BuildError.malformedGroupVersion s) := by
  refine ⟨rfl, ?_, ?_⟩
  · intro hok
    cases hfind : L.find? (fun e => e.kind = kind) with
    | none =>
      simp [build_api_resource, parseGroupVersion, findResource, hfind]
        at hok
    | some dr =>
      simp [build_api_resource, parseGroupVersion, findResource, hfind]
        at hok
      subst hok
      exact ⟨rfl, rfl⟩
  · simp [build_api_resource, parseGroupVersion, hs,
      splitOnce_eq_none_of_not_mem hslash]

/-- Witness for the C8 theorem at a concrete separator-free string. -/
theorem c8_core_v1_and_malformed_witness :
    (("apps" : String) ≠ "v1" ∧ ('/' : Char) ∉ ("apps" : String).data) ∧
    (parseGroupVersion "v1" = Except.ok ("", "v1") ∧
      (build_api_resource podsDiscovery "v1" "Pod" =
          Except.ok podKubeResource →
        podKubeResource.resource.group = "" ∧
        podKubeResource.resource.version = "v1") ∧
      build_api_resource podsDiscovery "apps" "Pod" =
        Except.error (BuildError.malformedGroupVersion "apps")) :=
  ⟨⟨by decide, by decide⟩,
    c8_core_v1_and_malformed podsDiscovery "Pod" "apps" podKubeResource
      (by decide) (by decide)⟩

/-- C9: for every object carried by an Applied or Restarted event, the
transform pipeline sets the managed-fields bookkeeping to absent and
leaves every other part of the object — identity (namespace, name),
spec/status payload, and all other metadata — unchanged. -/
theorem c9_transform_strips_only_managed_fields
    (o : DynamicObject) (items : List DynamicObject) :
    (∃ o2, transformEvent (WatcherEvent.applied o) =
        WatcherEvent.applied o2 ∧ StrippedOf o2 o) ∧
    (∃ L2, transformEvent (WatcherEvent.restarted items) =
        WatcherEvent.restarted L2 ∧ List.Forall₂ StrippedOf L2 items) := by
  constructor
  · exact ⟨clearManagedFields o, rfl, rfl, rfl, rfl, rfl, rfl⟩
  · refine ⟨items.map clearManagedFields, rfl, ?_⟩
    induction items with
    | nil => exact List.Forall₂.nil
    | cons x xs ih =>
      exact List.Forall₂.cons ⟨rfl, rfl, rfl, rfl, rfl⟩ ih

/-- C10: the managed-fields stripping transform is applied uniformly to
the object carried by every event variant, including Deleted: a
Deleted(o) event is forwarded as Deleted of o with the managed fields
set to absent (and nothing else changed). -/
theorem c10_transform_strips_deleted_too (o : DynamicObject) :
    transformEvent (WatcherEvent.deleted o) =
      WatcherEvent.deleted
        { o with metadata := { o.metadata with managed_fields := none } } ∧
    (∃ o2, transformEvent (WatcherEvent.deleted o) =
        WatcherEvent.deleted o2 ∧ StrippedOf o2 o) :=
  ⟨rfl, ⟨clearManagedFields o, rfl, rfl, rfl, rfl, rfl, rfl⟩⟩
